import Mathlib

/-!
Shallow embedding of `src/tool_calling_exercise.py`: a mock tool-calling
agent consisting of a `Tool` registry, a mock `ChatOpenAI` model whose
`invoke` classifies the prompt with substring tests and a cascade of six
regular expressions, and a single-turn agent loop.  Python exceptions
(KeyError on a missing dict key, TypeError on calling `str.strip` on a
non-string, IndexError on indexing an empty list) are modelled with
`Except PyErr`.  Strings are treated as their character sequences; the
case folding of Python `str.lower` agrees with `Char.toLower` on the
ASCII texts this program manipulates.
-/

/-- Values that flow through this program: the argument strings of tool
calls and the integer results of `get_text_length`. -/
inductive PyVal where
  | str (s : String)
  | int (n : Int)
deriving DecidableEq

/-- The Python exceptions this program can raise. -/
inductive PyErr where
  | keyError (k : String)
  | typeError
  | indexError
deriving DecidableEq

deriving instance DecidableEq for Except

/-- Python `d[k]` on a dict, modelled as first-match lookup in an
association list: raises `KeyError` when the key is absent. -/
def dictGet (d : List (String × PyVal)) (k : String) : Except PyErr PyVal :=
  match d.find? (fun kv => kv.1 == k) with
  | some kv => Except.ok kv.2
  | none => Except.error (PyErr.keyError k)

/-- Python `str(...)` on the values tool functions return. -/
def pyStr : PyVal → String
  | PyVal.str s => s
  | PyVal.int n => toString n

/-- The argument passed to a tool's underlying function: either a scalar
value (the extracted `text` field) or the whole argument dict. -/
inductive PyArg where
  | val (v : PyVal)
  | dict (d : List (String × PyVal))

/-- `class Tool`: a named capability with a description and a function.
`invoke` (line 33) just applies `func`; a Python-level type mismatch
inside the function surfaces as a `PyErr`. -/
structure Tool where
  name : String
  description : String
  func : PyArg → Except PyErr PyVal

/-- A tool-call dict as produced by the mock model: keys `name`, `args`,
`id`, `type`. -/
structure ToolCall where
  name : String
  args : List (String × PyVal)
  id : String
  type : String
deriving DecidableEq

/-- `class AIMessage`: content plus a (possibly empty) tool-call list.
`tool_calls = None` and `tool_calls = []` are identified, as the
constructor's `tool_calls or []` does. -/
structure AIMessage where
  content : String
  tool_calls : List ToolCall
deriving DecidableEq

/-- Python `s.lower()` (ASCII case folding). -/
def pyLower (s : String) : String :=
  String.mk (s.data.map Char.toLower)

/-- Python `needle in hay` on strings: contiguous-substring test. -/
def listInfix (needle : List Char) : List Char → Bool
  | [] => needle.isPrefixOf []
  | c :: t => needle.isPrefixOf (c :: t) || listInfix needle t

/-- Python `needle in hay` on strings. -/
def containsSub (hay needle : String) : Bool :=
  listInfix needle.data hay.data

/-- Character classes occurring in the six extraction patterns, under
`re.IGNORECASE` (so `[A-Z]` matches all ASCII letters). -/
inductive CharCls where
  | quote
  | notQuote
  | alpha
  | space

/-- Membership in a character class. -/
def clsMatch : CharCls → Char → Bool
  | CharCls.quote, c => c == '"' || c == '\''
  | CharCls.notQuote, c => !(c == '"' || c == '\'')
  | CharCls.alpha, c => c.isAlpha
  | CharCls.space, c =>
    c == ' ' || c == '\t' || c == '\n' || c == '\r' || c == '\x0b' || c == '\x0c'

/-- Python `\w` (ASCII part, which is all the program's inputs use). -/
def isWordChar (c : Char) : Bool :=
  c.isAlpha || c.isDigit || c == '_'

/-- Tokens of the six extraction regexes: case-insensitive literals,
two-way non-capturing alternation of literals, lazy `.*?` (dot excludes
newline, as `re.DOTALL` is not set), single-character classes, greedy
`*` and `+` over a class, the single capturing group `(cls+)`, and the
word boundary `\b`.  `groupAcc` is the in-progress state of the group
while it greedily consumes characters. -/
inductive RTok where
  | lit (s : String)
  | alt2 (a b : String)
  | lazyDotStar
  | cls (c : CharCls)
  | starGreedy (c : CharCls)
  | plusGreedy (c : CharCls)
  | group (c : CharCls)
  | groupAcc (c : CharCls) (acc : List Char)
  | wordB

/-- Match a literal (case-insensitively) against the front of the input,
returning the rest and the last character consumed (for `\b`). -/
def dropLit : List Char → Option Char → List Char → Option (Option Char × List Char)
  | [], prev, s => some (prev, s)
  | p :: ps, _, c :: s => if c.toLower == p then dropLit ps (some c) s else none
  | _ :: _, _, [] => none

/-- Result of a match attempt: `none` = out of fuel, `some none` =
definite failure, `some (some g)` = success with group-1 capture `g`. -/
abbrev MRes := Option (Option (List Char))

/-- Backtracking matcher for a token list against a prefix of `s`, with
Python `re` preference order: lazy `.*?` prefers fewest characters,
greedy `*`/`+`/group prefer most, alternation tries the left branch
first, each choice point backtracking through the whole continuation.
`prev` is the character just before the current position (for `\b`).
The fuel bounds only the recursion depth, which is at most
`(s.length + 1) * (toks.length + 1)`; callers pass more than that, so
the fuel never actually runs out. -/
def matchToks : Nat → List RTok → Option Char → List Char → MRes
  | 0, _, _, _ => none
  | _ + 1, [], _, _ => some (some [])
  | f + 1, RTok.lit l :: rest, prev, s =>
    match dropLit l.data prev s with
    | some (p', s') => matchToks f rest p' s'
    | none => some none
  | f + 1, RTok.alt2 a b :: rest, prev, s =>
    match dropLit a.data prev s with
    | some (p', s') =>
      match matchToks f rest p' s' with
      | some (some g) => some (some g)
      | none => none
      | some none =>
        match dropLit b.data prev s with
        | some (p'', s'') => matchToks f rest p'' s''
        | none => some none
    | none =>
      match dropLit b.data prev s with
      | some (p'', s'') => matchToks f rest p'' s''
      | none => some none
  | f + 1, RTok.lazyDotStar :: rest, prev, s =>
    match matchToks f rest prev s with
    | some (some g) => some (some g)
    | none => none
    | some none =>
      match s with
      | [] => some none
      | c :: s' => if c == '\n' then some none else matchToks f (RTok.lazyDotStar :: rest) (some c) s'
  | f + 1, RTok.cls c :: rest, _, s =>
    match s with
    | [] => some none
    | ch :: s' => if clsMatch c ch then matchToks f rest (some ch) s' else some none
  | f + 1, RTok.starGreedy c :: rest, prev, s =>
    match s with
    | [] => matchToks f rest prev s
    | ch :: s' =>
      if clsMatch c ch then
        match matchToks f (RTok.starGreedy c :: rest) (some ch) s' with
        | some none => matchToks f rest prev s
        | r => r
      else matchToks f rest prev s
  | f + 1, RTok.plusGreedy c :: rest, _, s =>
    match s with
    | [] => some none
    | ch :: s' =>
      if clsMatch c ch then matchToks f (RTok.starGreedy c :: rest) (some ch) s'
      else some none
  | f + 1, RTok.group c :: rest, _, s =>
    match s with
    | [] => some none
    | ch :: s' =>
      if clsMatch c ch then matchToks f (RTok.groupAcc c [ch] :: rest) (some ch) s'
      else some none
  | f + 1, RTok.groupAcc c acc :: rest, prev, s =>
    match s with
    | [] =>
      match matchToks f rest prev s with
      | some (some _) => some (some acc.reverse)
      | r => r
    | ch :: s' =>
      if clsMatch c ch then
        match matchToks f (RTok.groupAcc c (ch :: acc) :: rest) (some ch) s' with
        | some (some g) => some (some g)
        | none => none
        | some none =>
          match matchToks f rest prev s with
          | some (some _) => some (some acc.reverse)
          | r => r
      else
        match matchToks f rest prev s with
        | some (some _) => some (some acc.reverse)
        | r => r
  | f + 1, RTok.wordB :: rest, prev, s =>
    let lw := match prev with | some c => isWordChar c | none => false
    let rw := match s with | c :: _ => isWordChar c | [] => false
    if lw != rw then matchToks f rest prev s else some none

/-- `re.search`: try a match at each position, leftmost first. -/
def searchFrom (fuel : Nat) (toks : List RTok) : Option Char → List Char → MRes
  | prev, [] => matchToks fuel toks prev []
  | prev, c :: s' =>
    match matchToks fuel toks prev (c :: s') with
    | some (some g) => some (some g)
    | none => none
    | some none => searchFrom fuel toks (some c) s'

/-- `re.search(pattern, s, re.IGNORECASE)`, reporting `group(1)`:
`some (some g)` = match with capture `g`, `some none` = no match. -/
def regexSearch (toks : List RTok) (s : String) : Option (Option String) :=
  match searchFrom (32 * (s.length + 2)) toks none s.data with
  | some (some g) => some (some (String.mk g))
  | some none => some none
  | none => none

/-- Pattern `length.*?(?:of|for).*?["\']([^"\']+)["\']` (quoted text). -/
def pattern1 : List RTok :=
  [RTok.lit "length", RTok.lazyDotStar, RTok.alt2 "of" "for", RTok.lazyDotStar,
   RTok.cls CharCls.quote, RTok.group CharCls.notQuote, RTok.cls CharCls.quote]

/-- Pattern `length.*?(?:of|for).*?(?:word|text).*?:\s*([A-Za-z]+)`. -/
def pattern2 : List RTok :=
  [RTok.lit "length", RTok.lazyDotStar, RTok.alt2 "of" "for", RTok.lazyDotStar,
   RTok.alt2 "word" "text", RTok.lazyDotStar, RTok.lit ":", RTok.starGreedy CharCls.space,
   RTok.group CharCls.alpha]

/-- Pattern `length.*?(?:of|for).*?(?:word|text)\s+([A-Za-z]+)`. -/
def pattern3 : List RTok :=
  [RTok.lit "length", RTok.lazyDotStar, RTok.alt2 "of" "for", RTok.lazyDotStar,
   RTok.alt2 "word" "text", RTok.plusGreedy CharCls.space, RTok.group CharCls.alpha]

/-- Pattern `(?:word|text)\s*:\s*([A-Za-z]+)`. -/
def pattern4 : List RTok :=
  [RTok.alt2 "word" "text", RTok.starGreedy CharCls.space, RTok.lit ":",
   RTok.starGreedy CharCls.space, RTok.group CharCls.alpha]

/-- Pattern `length.*?:\s*([A-Za-z]+)`. -/
def pattern5 : List RTok :=
  [RTok.lit "length", RTok.lazyDotStar, RTok.lit ":", RTok.starGreedy CharCls.space,
   RTok.group CharCls.alpha]

/-- Pattern `\b([A-Z]+)\b` (any uppercase word; with `re.IGNORECASE`
this matches any ASCII-letter run with word boundaries). -/
def pattern6 : List RTok :=
  [RTok.wordB, RTok.group CharCls.alpha, RTok.wordB]

/-- The ordered pattern list of `ChatOpenAI.invoke` (lines 78-85). -/
def patterns : List (List RTok) :=
  [pattern1, pattern2, pattern3, pattern4, pattern5, pattern6]

/-- The extraction loop of lines 87-92: `text = "unknown"`, then the
first matching pattern's `group(1)` wins. -/
def extractGo : List (List RTok) → String → String
  | [], _ => "unknown"
  | pat :: rest, s =>
    match regexSearch pat s with
    | some (some g) => g
    | _ => extractGo rest s

/-- The extracted tool-call argument for the `length`-only branch. -/
def extractText (user_input : String) : String :=
  extractGo patterns user_input

/-- `class ChatOpenAI` (its fields; `tools` is set by `bind_tools` and
never read by `invoke`). -/
structure ChatOpenAI where
  temperature : Int := 0
  model : String := "gpt-3.5-turbo"
  tools : List Tool := []

/-- `ChatOpenAI.bind_tools`: store the tools and return the model. -/
def ChatOpenAI.bind_tools (self : ChatOpenAI) (tools : List Tool) : ChatOpenAI :=
  { self with tools := tools }

/-- `ChatOpenAI.invoke` (lines 54-105) on a string argument, which is
what the agent loop passes (the `isinstance(messages, str)` branch, so
`user_input = messages`). -/
def ChatOpenAI.invoke (self : ChatOpenAI) (messages : String) : AIMessage :=
  let user_input := messages
  if containsSub (pyLower user_input) "length" && containsSub (pyLower user_input) "dog" then
    { content := "",
      tool_calls := [{ name := "get_text_length", args := [("text", PyVal.str "DOG")],
                       id := "call_123", type := "tool_call" }] }
  else if containsSub (pyLower user_input) "length" then
    { content := "",
      tool_calls := [{ name := "get_text_length",
                       args := [("text", PyVal.str (extractText user_input))],
                       id := "call_124", type := "tool_call" }] }
  else
    { content := "I can help you with text length calculations!", tool_calls := [] }

/-- Python `s.strip(chars)`: remove characters of `chars` from both
ends. -/
def pyStrip (s : String) (chars : List Char) : String :=
  String.mk (((s.data.dropWhile (chars.contains ·)).reverse.dropWhile (chars.contains ·)).reverse)

/-- `get_text_length` (lines 108-112): `text.strip("'\n").strip('"')`
then `len` (the `print` is a side effect with no bearing on the
result). -/
def get_text_length (text : String) : Nat :=
  (pyStrip (pyStrip text ['\'', '\n']) ['"']).length

/-- The function slot of `text_length_tool`: `get_text_length` applied
to a scalar; applying it to anything but a string would fail inside
`str.strip` (modelled as `TypeError`). -/
def text_length_func : PyArg → Except PyErr PyVal
  | PyArg.val (PyVal.str s) => Except.ok (PyVal.int (get_text_length s))
  | _ => Except.error PyErr.typeError

/-- `text_length_tool` (lines 115-119). -/
def text_length_tool : Tool :=
  { name := "get_text_length",
    description := "Returns the length of a text by characters",
    func := text_length_func }

/-- `implement_create_model_with_tools` (lines 132-146). -/
def implement_create_model_with_tools (tools : List Tool) : ChatOpenAI :=
  ChatOpenAI.bind_tools { temperature := 0 } tools

/-- `implement_check_for_tool_calls` (lines 148-160): Python
`bool(response.tool_calls)`. -/
def implement_check_for_tool_calls (response : AIMessage) : Bool :=
  !response.tool_calls.isEmpty

/-- `implement_execute_tool_call` (lines 162-188).  The argument mapping
is always a dict in this model, so `isinstance(tool_args, dict)` holds
and the special branch is taken exactly when the name is
`get_text_length`. -/
def implement_execute_tool_call (tool_call : ToolCall) (available_tools : List Tool) :
    Except PyErr String :=
  let tool_name := tool_call.name
  let tool_args := tool_call.args
  match available_tools.find? (fun tool => tool.name == tool_name) with
  | some tool =>
    if tool_name == "get_text_length" then
      match dictGet tool_args "text" with
      | Except.ok v => (tool.func (PyArg.val v)).map pyStr
      | Except.error e => Except.error e
    else
      (tool.func (PyArg.dict tool_args)).map pyStr
  | none => Except.ok ("Tool " ++ tool_name ++ " not found")

/-- `implement_run_agent_with_tool_calling` (lines 190-223): one model
call, then either execute the first tool call or return the content. -/
def implement_run_agent_with_tool_calling (model_with_tools : ChatOpenAI)
    (user_input : String) (available_tools : List Tool) : Except PyErr String :=
  let response := model_with_tools.invoke user_input
  if implement_check_for_tool_calls response then
    match response.tool_calls with
    | tool_call :: _ => implement_execute_tool_call tool_call available_tools
    | [] => Except.error PyErr.indexError
  else
    Except.ok response.content

/-- Stripping as the spec sentence describes it, for comparison with the
code: one strip over single quotes, double quotes and newlines
together. -/
def stripAllQuoteChars (s : String) : String :=
  pyStrip s ['\'', '"', '\n']

/-! Helper lemmas about the substring test. -/

theorem listInfix_of_prefix {needle hay : List Char} (h : needle.isPrefixOf hay = true) :
    listInfix needle hay = true := by
  cases hay with
  | nil => simpa [listInfix] using h
  | cons c t => simp [listInfix, h]

theorem listInfix_append_left {needle hay : List Char} (pre : List Char)
    (h : listInfix needle hay = true) : listInfix needle (pre ++ hay) = true := by
  induction pre with
  | nil => simpa using h
  | cons a t ih => simp [listInfix, ih]

theorem isPrefixOf_append_self (needle post : List Char) :
    needle.isPrefixOf (needle ++ post) = true :=
  List.isPrefixOf_iff_prefix.mpr (List.prefix_append needle post)

theorem containsSub_append_self (pre mid post : String) :
    containsSub (pre ++ mid ++ post) mid = true := by
  have h1 : listInfix mid.data (mid.data ++ post.data) = true :=
    listInfix_of_prefix (isPrefixOf_append_self mid.data post.data)
  have h2 := listInfix_append_left pre.data h1
  simpa [containsSub, String.data_append, List.append_assoc] using h2

theorem containsSub_append_left_str (pre : String) {hay needle : String}
    (h : containsSub hay needle = true) : containsSub (pre ++ hay) needle = true := by
  simp only [containsSub] at h ⊢
  simpa [String.data_append] using listInfix_append_left pre.data h

/-- C1: running the agent loop on the exact prompt
"What is the length of the word: DOG", with the model bound to the
text-length tool and that tool in the registry, returns the literal
string "3" (modulo the `Except` wrapper that models Python's exception
channel). -/
theorem agent_dog_prompt_returns_three :
    implement_run_agent_with_tool_calling (implement_create_model_with_tools [text_length_tool])
      "What is the length of the word: DOG" [text_length_tool] = Except.ok "3" := by
  decide

/-- C2: whenever the prompt contains both "length" and "dog"
case-insensitively, `ChatOpenAI.invoke` returns the response with empty
content and exactly one tool call, naming `get_text_length` with
argument `text = "DOG"` and id `call_123`, regardless of the rest of the
prompt and of the model value. -/
theorem invoke_length_dog_hardcoded (m : ChatOpenAI) (p : String)
    (h1 : containsSub (pyLower p) "length" = true)
    (h2 : containsSub (pyLower p) "dog" = true) :
    m.invoke p =
      { content := "",
        tool_calls := [{ name := "get_text_length", args := [("text", PyVal.str "DOG")],
                         id := "call_123", type := "tool_call" }] } := by
  simp [ChatOpenAI.invoke, h1, h2]

/-- Witness for C2 at the concrete prompt "the LENGTH of my dog?". -/
theorem invoke_length_dog_hardcoded_witness :
    containsSub (pyLower "the LENGTH of my dog?") "length" = true ∧
    containsSub (pyLower "the LENGTH of my dog?") "dog" = true ∧
    ChatOpenAI.invoke {} "the LENGTH of my dog?" =
      { content := "",
        tool_calls := [{ name := "get_text_length", args := [("text", PyVal.str "DOG")],
                         id := "call_123", type := "tool_call" }] } :=
  ⟨by decide, by decide, invoke_length_dog_hardcoded {} "the LENGTH of my dog?" (by decide) (by decide)⟩

/-- C3: if the prompt contains "length" case-insensitively, does not
contain "dog", and none of the six extraction patterns matches it, then
the extracted argument is the literal "unknown", the emitted tool call
carries `text = "unknown"`, and the agent loop over the program's
registry returns "7", the length of "unknown". -/
theorem agent_unknown_default (m : ChatOpenAI) (p : String)
    (hlen : containsSub (pyLower p) "length" = true)
    (hdog : containsSub (pyLower p) "dog" = false)
    (hpat : ∀ pat ∈ patterns, regexSearch pat p = some none) :
    extractText p = "unknown" ∧
    (m.invoke p).tool_calls =
      [{ name := "get_text_length", args := [("text", PyVal.str "unknown")],
         id := "call_124", type := "tool_call" }] ∧
    implement_run_agent_with_tool_calling m p [text_length_tool] = Except.ok "7" := by
  have h1 := hpat pattern1 (by simp [patterns])
  have h2 := hpat pattern2 (by simp [patterns])
  have h3 := hpat pattern3 (by simp [patterns])
  have h4 := hpat pattern4 (by simp [patterns])
  have h5 := hpat pattern5 (by simp [patterns])
  have h6 := hpat pattern6 (by simp [patterns])
  have hext : extractText p = "unknown" := by
    simp [extractText, patterns, extractGo, h1, h2, h3, h4, h5, h6]
  have hinv : m.invoke p =
      { content := "",
        tool_calls := [{ name := "get_text_length", args := [("text", PyVal.str "unknown")],
                         id := "call_124", type := "tool_call" }] } := by
    simp [ChatOpenAI.invoke, hlen, hdog, hext]
  refine ⟨hext, by rw [hinv], ?_⟩
  unfold implement_run_agent_with_tool_calling
  rw [hinv]
  decide

/-- Witness for C3 at "9length9": the digits deny every pattern a word
boundary or keyword, so nothing matches. -/
theorem agent_unknown_default_witness :
    containsSub (pyLower "9length9") "length" = true ∧
    containsSub (pyLower "9length9") "dog" = false ∧
    (∀ pat ∈ patterns, regexSearch pat "9length9" = some none) ∧
    extractText "9length9" = "unknown" ∧
    implement_run_agent_with_tool_calling {} "9length9" [text_length_tool] = Except.ok "7" :=
  ⟨by decide, by decide, by decide,
   (agent_unknown_default {} "9length9" (by decide) (by decide) (by decide)).1,
   (agent_unknown_default {} "9length9" (by decide) (by decide) (by decide)).2.2⟩

/-- C4: the six patterns are tried in listed order and the first match's
capture group supplies the argument: on "length of 'cats'" the first
pattern (quoted text) already matches with capture "cats", the extracted
argument is "cats", and the agent loop returns "4". -/
theorem agent_quoted_cats_first_pattern :
    regexSearch pattern1 "length of 'cats'" = some (some "cats") ∧
    extractText "length of 'cats'" = "cats" ∧
    implement_run_agent_with_tool_calling (implement_create_model_with_tools [text_length_tool])
      "length of 'cats'" [text_length_tool] = Except.ok "4" := by
  refine ⟨by decide, by decide, by decide⟩

/-- C5: executing a tool call whose name matches no tool in the registry
returns (without raising) the string `Tool <name> not found`, which
contains both "not found" and the tool's name; the argument mapping is
arbitrary and never inspected. -/
theorem execute_unknown_tool_not_found (tc : ToolCall) (tools : List Tool)
    (h : ∀ t ∈ tools, t.name ≠ tc.name) :
    implement_execute_tool_call tc tools = Except.ok ("Tool " ++ tc.name ++ " not found") ∧
    containsSub ("Tool " ++ tc.name ++ " not found") "not found" = true ∧
    containsSub ("Tool " ++ tc.name ++ " not found") tc.name = true := by
  have hfind : tools.find? (fun tool => tool.name == tc.name) = none := by
    rw [List.find?_eq_none]
    intro t ht
    simp [h t ht]
  refine ⟨by simp [implement_execute_tool_call, hfind], ?_, ?_⟩
  · exact containsSub_append_left_str ("Tool " ++ tc.name) (by decide)
  · exact containsSub_append_self "Tool " tc.name " not found"

/-- Witness for C5: a call named "nope" against the program's registry. -/
theorem execute_unknown_tool_not_found_witness :
    (∀ t ∈ [text_length_tool],
      t.name ≠ (ToolCall.mk "nope" [("text", PyVal.str "DOG")] "call_9" "tool_call").name) ∧
    implement_execute_tool_call (ToolCall.mk "nope" [("text", PyVal.str "DOG")] "call_9" "tool_call")
      [text_length_tool] = Except.ok ("Tool " ++ "nope" ++ " not found") :=
  ⟨by decide,
   (execute_unknown_tool_not_found (ToolCall.mk "nope" [("text", PyVal.str "DOG")] "call_9" "tool_call")
     [text_length_tool] (by decide)).1⟩

/-- C6: if the prompt does not contain "length" case-insensitively, the
agent loop (over any registry) returns the model's fixed fallback
sentence verbatim; the response carries no tool calls, so the
tool-dispatch branch guarded by `implement_check_for_tool_calls` is not
taken and no tool is invoked. -/
theorem agent_no_length_fallback (m : ChatOpenAI) (p : String) (tools : List Tool)
    (h : containsSub (pyLower p) "length" = false) :
    implement_run_agent_with_tool_calling m p tools =
      Except.ok "I can help you with text length calculations!" ∧
    (m.invoke p).tool_calls = [] ∧
    implement_check_for_tool_calls (m.invoke p) = false := by
  have hinv : m.invoke p =
      { content := "I can help you with text length calculations!", tool_calls := [] } := by
    simp [ChatOpenAI.invoke, h]
  refine ⟨?_, by rw [hinv], by rw [hinv]; decide⟩
  unfold implement_run_agent_with_tool_calling
  rw [hinv]
  simp [implement_check_for_tool_calls]

/-- Witness for C6 at the concrete prompt "hello there". -/
theorem agent_no_length_fallback_witness :
    containsSub (pyLower "hello there") "length" = false ∧
    implement_run_agent_with_tool_calling {} "hello there" [text_length_tool] =
      Except.ok "I can help you with text length calculations!" ∧
    implement_check_for_tool_calls (ChatOpenAI.invoke {} "hello there") = false :=
  ⟨by decide,
   (agent_no_length_fallback {} "hello there" [text_length_tool] (by decide)).1,
   (agent_no_length_fallback {} "hello there" [text_length_tool] (by decide)).2.2⟩

/-- C7: every response of `ChatOpenAI.invoke` either has empty content
and exactly one tool call, or non-empty content and no tool calls. -/
theorem invoke_content_toolcall_invariant (m : ChatOpenAI) (p : String) :
    ((m.invoke p).content = "" ∧ (m.invoke p).tool_calls.length = 1) ∨
    ((m.invoke p).content ≠ "" ∧ (m.invoke p).tool_calls = []) := by
  unfold ChatOpenAI.invoke
  cases hlen : containsSub (pyLower p) "length" <;>
    cases hdog : containsSub (pyLower p) "dog" <;>
      simp [hlen, hdog]

/-- C8: `ChatOpenAI.invoke` is deterministic: two invocations on equal
prompts agree on the content and on the whole tool-call list (names,
argument mappings and identifiers alike).  In this embedding `invoke` is
a pure function of the prompt, which is exactly what the Python method
computes: it reads no mutable state and uses no randomness. -/
theorem invoke_deterministic (m : ChatOpenAI) (p q : String) (h : p = q) :
    (m.invoke p).content = (m.invoke q).content ∧
    (m.invoke p).tool_calls = (m.invoke q).tool_calls := by
  subst h
  exact ⟨rfl, rfl⟩

/-- Witness for C8 at the concrete prompt "what is the length of 'abc'". -/
theorem invoke_deterministic_witness :
    (ChatOpenAI.invoke {} "what is the length of 'abc'").content =
      (ChatOpenAI.invoke {} "what is the length of 'abc'").content ∧
    (ChatOpenAI.invoke {} "what is the length of 'abc'").tool_calls =
      (ChatOpenAI.invoke {} "what is the length of 'abc'").tool_calls :=
  invoke_deterministic {} "what is the length of 'abc'" "what is the length of 'abc'" rfl

theorem pyStrip_length_le (s : String) (cs : List Char) : (pyStrip s cs).length ≤ s.length := by
  simp only [pyStrip, String.length_mk]
  calc (((s.data.dropWhile (cs.contains ·)).reverse.dropWhile (cs.contains ·)).reverse).length
      = ((s.data.dropWhile (cs.contains ·)).reverse.dropWhile (cs.contains ·)).length :=
        List.length_reverse _
    _ ≤ (s.data.dropWhile (cs.contains ·)).reverse.length :=
        (List.dropWhile_sublist _).length_le
    _ = (s.data.dropWhile (cs.contains ·)).length := List.length_reverse _
    _ ≤ s.data.length := (List.dropWhile_sublist _).length_le

/-- C9 counterexample: the claim reads `get_text_length` as counting the
input after one strip of leading and trailing single quotes, double
quotes and newlines; on the input `"\nDOG` the code instead answers 4,
because the newline only becomes leading after the outer double quote is
removed by the second strip, while the described stripping leaves the
bare "DOG" of length 3. -/
theorem get_text_length_vs_single_strip :
    get_text_length "\"\nDOG" = 4 ∧ (stripAllQuoteChars "\"\nDOG").length = 3 := by
  decide

/-- C9 amended: `get_text_length` first strips leading and trailing
single quotes and newlines, then leading and trailing double quotes, and
returns the length of the result of those two passes — so quotes or
newlines exposed by the second pass survive; the count is of the
stripped string, not necessarily of the original (the input "'DOG'"
yields 3, not 5; the input `"\nDOG` yields 4). -/
theorem get_text_length_two_pass_strip :
    (∀ s : String, get_text_length s = (pyStrip (pyStrip s ['\'', '\n']) ['"']).length) ∧
    (∀ s : String, get_text_length s ≤ s.length) ∧
    get_text_length "'DOG'" = 3 ∧ get_text_length "\"\nDOG" = 4 := by
  refine ⟨fun _ => rfl, fun s => ?_, by decide, by decide⟩
  calc get_text_length s ≤ (pyStrip s ['\'', '\n']).length := pyStrip_length_le _ _
    _ ≤ s.length := pyStrip_length_le _ _

/-- C10: when the registry holds a tool named `get_text_length` and the
call names it but its argument dict has no key "text", the executor
raises `KeyError "text"` instead of returning a string: the lookup
`tool_args['text']` fails before the tool function is reached. -/
theorem execute_missing_text_key_raises (tc : ToolCall) (tools : List Tool)
    (hname : tc.name = "get_text_length")
    (hmem : ∃ t ∈ tools, t.name = "get_text_length")
    (hargs : ∀ kv ∈ tc.args, kv.1 ≠ "text") :
    implement_execute_tool_call tc tools = Except.error (PyErr.keyError "text") := by
  have hfind : (tools.find? (fun tool => tool.name == tc.name)).isSome := by
    rw [List.find?_isSome]
    obtain ⟨t, ht, hn⟩ := hmem
    exact ⟨t, ht, by simp [hn, hname]⟩
  obtain ⟨tool, htool⟩ := Option.isSome_iff_exists.mp hfind
  have htool' : tools.find? (fun tool => tool.name == "get_text_length") = some tool := by
    rw [← hname]
    exact htool
  have hget : dictGet tc.args "text" = Except.error (PyErr.keyError "text") := by
    have hnone : tc.args.find? (fun kv => kv.1 == "text") = none := by
      rw [List.find?_eq_none]
      intro kv hkv
      simp [hargs kv hkv]
    simp [dictGet, hnone]
  simp [implement_execute_tool_call, hname, htool', hget]

/-- Witness for C10: the program's registry, a call named
`get_text_length` whose only argument key is "wrong". -/
theorem execute_missing_text_key_raises_witness :
    (∀ kv ∈ (ToolCall.mk "get_text_length" [("wrong", PyVal.str "DOG")] "call_7" "tool_call").args,
      kv.1 ≠ "text") ∧
    implement_execute_tool_call
      (ToolCall.mk "get_text_length" [("wrong", PyVal.str "DOG")] "call_7" "tool_call")
      [text_length_tool] = Except.error (PyErr.keyError "text") :=
  ⟨by decide,
   execute_missing_text_key_raises
     (ToolCall.mk "get_text_length" [("wrong", PyVal.str "DOG")] "call_7" "tool_call")
     [text_length_tool] rfl ⟨text_length_tool, List.Mem.head _, rfl⟩ (by decide)⟩
